import Mathlib

/-!
Shallow embedding of the tool-dispatch component of the repository:
`ToolManager` (registry, declaration aggregation, call dispatch),
`WeatherTool` and `EmailTool`.

Conventions of the embedding:
* JavaScript values are modelled by the inductive `JsValue`; a missing
  object property reads as `JsValue.vNull` (JS `undefined` and `null` are
  collapsed, both being falsy).
* A JS `Map` is modelled by an association list in insertion order
  (`Registry`), with `hasKey`/`getKey`/`setKey` for `has`/`get`/`set`.
* A thrown exception / rejected promise is modelled by `Except.error`
  carrying the error message (for plugin-level errors) or an
  `ApplicationError` (for errors thrown by the manager itself).
* `Logger` calls are pure side effects with no data flow and are omitted.
* A duck-typed tool instance is `ToolInstance`: the `has...` flags model
  `typeof x.f === 'function'`; calling an absent method is the TypeError
  that JS raises, modelled in `callExecute`/`callGetDeclaration`.
-/

namespace VepAlex

/-- A JavaScript runtime value (the fragment the tools manipulate). -/
inductive JsValue where
  | vNull
  | vBool (b : Bool)
  | vInt (n : Int)
  | vStr (s : String)
  | vArr (elems : List JsValue)
  | vObj (fields : List (String × JsValue))

/-- JS truthiness test, negated: `!v` in the source. Objects and arrays are
always truthy. -/
def falsy : JsValue → Bool
  | .vNull => true
  | .vBool b => !b
  | .vInt n => n == 0
  | .vStr s => s == ""
  | .vArr _ => false
  | .vObj _ => false

/-- Property read `v[k]`; a missing property is `undefined`, modelled as
`vNull`. -/
def getField (v : JsValue) (k : String) : JsValue :=
  match v with
  | .vObj fields => (((fields.find? (fun p => p.1 == k)).map Prod.snd).getD .vNull)
  | _ => .vNull

/-- JS string coercion as used in template literals. Arrays and objects do
not occur as interpolated values anywhere in the embedded code paths, so
their coercion is approximate. -/
def jsToString : JsValue → String
  | .vNull => "undefined"
  | .vBool b => cond b "true" "false"
  | .vInt n => toString n
  | .vStr s => s
  | .vArr _ => ""
  | .vObj _ => "[object Object]"

/-! ## WeatherTool -/

/-- Truncation to a 32-bit signed integer: the effect of `hash & hash` and
of `<<` in JS. -/
def toInt32 (n : Int) : Int := (n + 2 ^ 31) % 2 ^ 32 - 2 ^ 31

/-- One iteration of `WeatherTool.hashString`'s loop:
`hash = ((hash << 5) - hash) + char; hash = hash & hash;`.
`hash << 5` truncates to 32 bits itself; the subtraction and addition are
exact in a JS number and the `&` truncates again. -/
def hashStep (hash : Int) (c : Nat) : Int :=
  toInt32 (toInt32 (hash * 32) - hash + c)

/-- `WeatherTool.hashString`: running hash over the character codes,
then `Math.abs`. (JS `charCodeAt` yields UTF-16 code units; on the
basic-multilingual-plane strings involved these coincide with the code
points used here.) -/
def hashString (s : String) : Nat :=
  (s.data.foldl (fun h ch => hashStep h ch.toNat) 0).natAbs

/-- The `weatherConditions` array of `WeatherTool.execute`. -/
def weatherConditions : List String :=
  ["sunny", "partly cloudy", "cloudy",
   "light rain", "heavy rain", "thunderstorm",
   "windy", "snow", "foggy"]

/-- The `temperatures` lookup object of `WeatherTool.execute`
(`min`, `max`); an absent key reads as `undefined`, i.e. `none`. -/
def temperatures : String → Option (Int × Int)
  | "sunny" => some (20, 35)
  | "partly cloudy" => some (18, 30)
  | "cloudy" => some (15, 25)
  | "light rain" => some (12, 20)
  | "heavy rain" => some (10, 18)
  | "thunderstorm" => some (15, 25)
  | "windy" => some (8, 15)
  | "snow" => some (-5, 5)
  | "foggy" => some (5, 15)
  | _ => none

/-- `WeatherTool.execute`. `currentDate` stands for
`this.getCurrentDate()` (ambient wall-clock date, an input of the model).
Reading `temp.min` off an `undefined` lookup would be a TypeError, hence
the `Except.error` branch (unreachable, as proved below). All arithmetic
is on non-negative seeds with positive moduli, where JS `%` agrees with
`Int.emod`. -/
def weatherExecute (currentDate : String) (args : JsValue) : Except String JsValue :=
  let location := getField args "location"
  let date := getField args "date"
  let forecastDate := if falsy date then JsValue.vStr currentDate else date
  let seed := hashString (jsToString location ++ jsToString forecastDate)
  let condition := weatherConditions.getD (seed % weatherConditions.length) ""
  match temperatures condition with
  | none => .error "Cannot read properties of undefined (reading min)"
  | some temp =>
    let currentTemp : Int := temp.1 + (seed : Int) % (temp.2 - temp.1)
    .ok (.vObj [
      ("location", location),
      ("date", forecastDate),
      ("condition", .vStr condition),
      ("temperature", .vInt currentTemp),
      ("humidity", .vInt (40 + (seed : Int) % 40)),
      ("windSpeed", .vInt (5 + (seed : Int) % 25)),
      ("forecast", .vStr ("The weather in " ++ jsToString location ++ " on "
        ++ jsToString forecastDate ++ " will be " ++ condition
        ++ " with a temperature of " ++ toString currentTemp ++ "Â°C"))])

/-- `WeatherTool.getDeclaration`: an array with one function declaration. -/
def weatherDeclaration : JsValue :=
  .vArr [.vObj [
    ("name", .vStr "get_weather_on_date"),
    ("description", .vStr "Get the weather forecast for a specific location and date"),
    ("parameters", .vObj [
      ("type", .vStr "object"),
      ("properties", .vObj [
        ("location", .vObj [
          ("type", .vStr "string"),
          ("description", .vStr "The location to get weather for (city name)")]),
        ("date", .vObj [
          ("type", .vStr "string"),
          ("description", .vStr "The date to get weather for (YYYY-MM-DD format). If not provided, the current date is used.")])]),
      ("required", .vArr [.vStr "location"])])]]

/-! ## EmailTool -/

/-- Ambient configuration and transport of `EmailTool.execute`:
`emailUser`/`emailPassword` are the combined
`CONFIG.EMAIL.* || process.env.*` lookups (`none` when both are absent or
falsy), and `sendMail` is the outcome of `transporter.sendMail` for the
given `(to, subject, body)` — external IO, an input of the model. -/
structure EmailEnv where
  emailUser : Option String
  emailPassword : Option String
  sendMail : String → String → String → Except String Unit

/-- `EmailTool.execute`. -/
def emailExecute (env : EmailEnv) (args : JsValue) : Except String JsValue :=
  let toAddr := getField args "to"
  let subject := getField args "subject"
  let body := getField args "body"
  if falsy toAddr || falsy subject || falsy body then
    .error "Missing required fields: to, subject, or body."
  else
    match env.emailUser, env.emailPassword with
    | some _, some _ =>
      match env.sendMail (jsToString toAddr) (jsToString subject) (jsToString body) with
      | .ok _ => .ok (.vStr "Email sent successfully.")
      | .error msg => .error ("Failed to send email: " ++ msg)
    | _, _ => .error "Email credentials are not configured. Please set EMAIL_USER and EMAIL_PASSWORD in CONFIG or environment variables."

/-- `EmailTool.getDeclaration`: a single declaration object. -/
def emailDeclaration : JsValue :=
  .vObj [
    ("name", .vStr "sendEmail"),
    ("description", .vStr "Sends an email to a specified recipient."),
    ("parameters", .vObj [
      ("type", .vStr "object"),
      ("properties", .vObj [
        ("to", .vObj [("type", .vStr "string"),
          ("description", .vStr "The email address of the recipient.")]),
        ("subject", .vObj [("type", .vStr "string"),
          ("description", .vStr "The subject of the email.")]),
        ("body", .vObj [("type", .vStr "string"),
          ("description", .vStr "The body content of the email.")])]),
      ("required", .vArr [.vStr "to", .vStr "subject", .vStr "body"])])]

/-! ## ToolManager -/

/-- A duck-typed tool instance. `hasGetDeclaration`/`hasExecute` model
`typeof x.f === 'function'`; the `...Impl` fields give the behaviour of
the method when present. -/
structure ToolInstance where
  hasGetDeclaration : Bool
  getDeclarationImpl : Except String JsValue
  hasExecute : Bool
  executeImpl : JsValue → Except String JsValue

/-- Calling `tool.getDeclaration()`: a TypeError when absent. -/
def ToolInstance.callGetDeclaration (t : ToolInstance) : Except String JsValue :=
  if t.hasGetDeclaration then t.getDeclarationImpl
  else .error "tool.getDeclaration is not a function"

/-- Calling `tool.execute(args)`: a TypeError when absent (raised inside
the dispatcher's try block). -/
def ToolInstance.callExecute (t : ToolInstance) (args : JsValue) : Except String JsValue :=
  if t.hasExecute then t.executeImpl args
  else .error "tool.execute is not a function"

/-- The weather tool as a registered instance. -/
def weatherTool (currentDate : String) : ToolInstance :=
  { hasGetDeclaration := true
    getDeclarationImpl := .ok weatherDeclaration
    hasExecute := true
    executeImpl := weatherExecute currentDate }

/-- The email tool as a registered instance. -/
def emailTool (env : EmailEnv) : ToolInstance :=
  { hasGetDeclaration := true
    getDeclarationImpl := .ok emailDeclaration
    hasExecute := true
    executeImpl := emailExecute env }

/-- The registry `this.tools`, a JS `Map` in insertion order. -/
abbrev Registry := List (String × ToolInstance)

/-- `this.tools.has(name)`. -/
def hasKey (m : Registry) (name : String) : Bool :=
  m.any (fun p => p.1 == name)

/-- `this.tools.get(name)`. -/
def getKey (m : Registry) (name : String) : Option ToolInstance :=
  (m.find? (fun p => p.1 == name)).map Prod.snd

/-- `this.tools.set(name, t)`: overwrite in place, else append. -/
def setKey (m : Registry) (name : String) (t : ToolInstance) : Registry :=
  if hasKey m name then m.map (fun p => if p.1 == name then (name, t) else p)
  else m ++ [(name, t)]

/-- Error codes referenced from `error-boundary.js`. -/
inductive ErrorCode where
  | INVALID_STATE
  | INVALID_PARAMETER
deriving DecidableEq

/-- An `ApplicationError` thrown by the manager. -/
structure ApplicationError where
  message : String
  code : ErrorCode
deriving DecidableEq

/-- `ToolManager.registerTool`, as a state transformer on the registry:
a thrown error leaves `this.tools` untouched. A falsy `toolInstance`
argument is `none` (a falsy value has no methods; the `!toolInstance`
test short-circuits before the `typeof` test). -/
def registerTool (name : String) (toolInstance : Option ToolInstance) (m : Registry) :
    Except ApplicationError Unit × Registry :=
  if hasKey m name then
    (.error ⟨"Tool \"" ++ name ++ "\" is already registered.", .INVALID_STATE⟩, m)
  else
    match toolInstance with
    | none =>
      (.error ⟨"Invalid tool instance for \"" ++ name ++ "\". Tool must have a \"getDeclaration\" method.",
        .INVALID_PARAMETER⟩, m)
    | some t =>
      if t.hasGetDeclaration then
        (.ok (), setKey m name t)
      else
        (.error ⟨"Invalid tool instance for \"" ++ name ++ "\". Tool must have a \"getDeclaration\" method.",
          .INVALID_PARAMETER⟩, m)

/-- `ToolManager.getToolDeclarations`: fold over the registry in insertion
order; a `describe` that throws is caught and skipped, a falsy declaration
is skipped with a warning. -/
def getToolDeclarations (m : Registry) : List (String × JsValue) :=
  m.foldl
    (fun declarations p =>
      match (p.2).callGetDeclaration with
      | .ok declaration =>
        if falsy declaration then declarations
        else declarations ++ [(p.1, declaration)]
      | .error _ => declarations)
    []

/-- An inbound call request `{name, args, id}`. -/
structure FunctionCall where
  name : String
  args : JsValue
  id : String

/-- One entry of the response envelope: `{response, id}` where `response`
is the object `{output: ...}` or `{error: ...}`, kept as a field list to
record exactly which outcome keys are present. -/
structure FunctionResponse where
  response : List (String × JsValue)
  id : String

/-- The response envelope `{functionResponses: [...]}`. -/
structure ToolResponse where
  functionResponses : List FunctionResponse

/-- `ToolManager.handleToolCall`. The outer `Except` is an error thrown by
the dispatcher itself (the unknown-tool `ApplicationError`); a plugin
failure is caught and becomes an `{error}` envelope entry. -/
def handleToolCall (m : Registry) (functionCall : FunctionCall) :
    Except ApplicationError ToolResponse :=
  let tool :=
    if functionCall.name == "get_weather_on_date" then getKey m "weather"
    else if functionCall.name == "sendEmail" then getKey m "email"
    else getKey m functionCall.name
  match tool with
  | none =>
    .error ⟨"Unknown tool: \"" ++ functionCall.name ++ "\".", .INVALID_PARAMETER⟩
  | some t =>
    match t.callExecute functionCall.args with
    | .ok result => .ok ⟨[⟨[("output", result)], functionCall.id⟩]⟩
    | .error msg => .ok ⟨[⟨[("error", .vStr msg)], functionCall.id⟩]⟩

/-! ## Specification-side characterisations -/

/-- The alias-resolution rule of the spec: the two aliased external names
map to their owning registry keys, any other name is looked up directly. -/
def resolveTool (m : Registry) (name : String) : Option ToolInstance :=
  if name == "get_weather_on_date" then getKey m "weather"
  else if name == "sendEmail" then getKey m "email"
  else getKey m name

/-- Dispatch once a plugin has (or has not) been resolved: unknown tool
raises, otherwise the single-entry envelope with exactly one outcome
field. -/
def dispatchTo (tool : Option ToolInstance) (args : JsValue) (i name : String) :
    Except ApplicationError ToolResponse :=
  match tool with
  | none => .error ⟨"Unknown tool: \"" ++ name ++ "\".", .INVALID_PARAMETER⟩
  | some t =>
    match t.callExecute args with
    | .ok result => .ok ⟨[⟨[("output", result)], i⟩]⟩
    | .error msg => .ok ⟨[⟨[("error", .vStr msg)], i⟩]⟩

theorem handleToolCall_eq (m : Registry) (fc : FunctionCall) :
    handleToolCall m fc = dispatchTo (resolveTool m fc.name) fc.args fc.id fc.name := rfl

/-! ## Helper lemmas -/

theorem beq_false_of_ne {α : Type} [BEq α] [LawfulBEq α] {a b : α} (h : a ≠ b) :
    (a == b) = false := by
  cases hb : a == b
  · rfl
  · exact absurd (eq_of_beq hb) h

theorem getKey_eq_none {m : Registry} {name : String} (h : hasKey m name = false) :
    getKey m name = none := by
  induction m with
  | nil => rfl
  | cons p rest ih =>
    simp only [hasKey, List.any_cons, Bool.or_eq_false_iff] at h
    simp only [getKey, List.find?_cons, h.1]
    exact ih h.2

theorem hasKey_of_getKey {m : Registry} {name : String} {t : ToolInstance}
    (h : getKey m name = some t) : hasKey m name = true := by
  induction m with
  | nil => simp [getKey] at h
  | cons p rest ih =>
    simp only [hasKey, List.any_cons, Bool.or_eq_true]
    by_cases hp : (p.1 == name) = true
    · exact Or.inl hp
    · simp only [getKey, List.find?_cons, Bool.not_eq_true] at h
      rw [Bool.not_eq_true] at hp
      rw [hp] at h
      exact Or.inr (ih h)

/-! ## Concrete instances used by witnesses -/

/-- A configured mail environment whose transport always succeeds. -/
def testEmailEnv : EmailEnv :=
  { emailUser := some "user@example.com"
    emailPassword := some "secret"
    sendMail := fun _ _ _ => .ok () }

/-- A well-formed tool whose execution always succeeds with a constant. -/
def constTool : ToolInstance :=
  { hasGetDeclaration := true
    getDeclarationImpl := .ok (.vStr "decl")
    hasExecute := true
    executeImpl := fun _ => .ok (.vStr "done") }

/-- A tool with a `getDeclaration` method but no `execute` method. -/
def noExecuteTool : ToolInstance :=
  { hasGetDeclaration := true
    getDeclarationImpl := .ok (.vStr "decl")
    hasExecute := false
    executeImpl := fun _ => .error "unreachable" }

/-- A well-formed tool whose `getDeclaration` call throws. -/
def badDeclTool : ToolInstance :=
  { hasGetDeclaration := true
    getDeclarationImpl := .error "boom"
    hasExecute := true
    executeImpl := fun _ => .ok .vNull }

/-! ## Claims -/

/-- C1: whenever the call's name resolves to a registered tool and that
tool's `execute` fails, `handleToolCall` does not propagate the failure:
it returns the envelope whose single entry is keyed by the request's `id`
and carries `{error: message}`. The witness instantiates this at the mail
plugin with a missing recipient (`to: ""`). -/
theorem dispatch_isolates_execute_failure
    (m : Registry) (fc : FunctionCall) (t : ToolInstance) (msg : String)
    (hres : resolveTool m fc.name = some t)
    (hexec : t.callExecute fc.args = .error msg) :
    handleToolCall m fc = .ok ⟨[⟨[("error", .vStr msg)], fc.id⟩]⟩ := by
  rw [handleToolCall_eq, hres]
  simp only [dispatchTo, hexec]

theorem dispatch_isolates_execute_failure_witness :
    handleToolCall [("email", emailTool testEmailEnv)]
        ⟨"sendEmail", .vObj [("to", .vStr ""), ("subject", .vStr "s"), ("body", .vStr "b")], "call-1"⟩
      = .ok ⟨[⟨[("error", .vStr "Missing required fields: to, subject, or body.")], "call-1"⟩]⟩ :=
  dispatch_isolates_execute_failure _ _ (emailTool testEmailEnv) _ rfl rfl

/-- C2: a call whose name is neither an alias-table entry
(`get_weather_on_date`, `sendEmail`) nor a registry key makes
`handleToolCall` itself fail with the unknown-tool `ApplicationError`
instead of returning an envelope; moreover this is the only error path of
dispatch that is not converted into an envelope: every dispatch-level
error is the unknown-tool error, raised exactly when no plugin resolves. -/
theorem dispatch_unknown_tool_raises
    (m : Registry) (fc : FunctionCall)
    (h1 : fc.name ≠ "get_weather_on_date") (h2 : fc.name ≠ "sendEmail")
    (h3 : hasKey m fc.name = false) :
    handleToolCall m fc =
      .error ⟨"Unknown tool: \"" ++ fc.name ++ "\".", .INVALID_PARAMETER⟩ ∧
    ∀ (m' : Registry) (fc' : FunctionCall) (e : ApplicationError),
      handleToolCall m' fc' = .error e →
        resolveTool m' fc'.name = none ∧
        e = ⟨"Unknown tool: \"" ++ fc'.name ++ "\".", .INVALID_PARAMETER⟩ := by
  constructor
  · rw [handleToolCall_eq]
    have hres : resolveTool m fc.name = none := by
      simp only [resolveTool, beq_false_of_ne h1, beq_false_of_ne h2, if_false,
        Bool.false_eq_true]
      exact getKey_eq_none h3
    rw [hres]
    rfl
  · intro m' fc' e he
    rw [handleToolCall_eq] at he
    cases hres : resolveTool m' fc'.name with
    | none =>
      rw [hres] at he
      simp only [dispatchTo, Except.error.injEq] at he
      exact ⟨rfl, he.symm⟩
    | some t =>
      rw [hres] at he
      simp only [dispatchTo] at he
      cases hex : t.callExecute fc'.args with
      | ok v => rw [hex] at he; exact absurd he (by simp)
      | error msg => rw [hex] at he; exact absurd he (by simp)

theorem dispatch_unknown_tool_raises_witness :
    handleToolCall [] ⟨"mystery", .vObj [], "x"⟩ =
      .error ⟨"Unknown tool: \"" ++ "mystery" ++ "\".", .INVALID_PARAMETER⟩ ∧
    ∀ (m' : Registry) (fc' : FunctionCall) (e : ApplicationError),
      handleToolCall m' fc' = .error e →
        resolveTool m' fc'.name = none ∧
        e = ⟨"Unknown tool: \"" ++ fc'.name ++ "\".", .INVALID_PARAMETER⟩ :=
  dispatch_unknown_tool_raises [] ⟨"mystery", .vObj [], "x"⟩
    (by decide) (by decide) rfl

/-- C3: registering a second plugin under an existing name fails with the
conflict condition (`INVALID_STATE`) and leaves the registry unchanged,
so the entry under that name is still the first-registered instance. -/
theorem register_duplicate_conflict
    (m : Registry) (name : String) (inst : Option ToolInstance) (t0 : ToolInstance)
    (h : getKey m name = some t0) :
    (registerTool name inst m).1 =
      .error ⟨"Tool \"" ++ name ++ "\" is already registered.", .INVALID_STATE⟩ ∧
    (registerTool name inst m).2 = m ∧
    getKey (registerTool name inst m).2 name = some t0 := by
  have hk : hasKey m name = true := hasKey_of_getKey h
  refine ⟨?_, ?_, ?_⟩ <;> simp only [registerTool, hk, if_true, h]

theorem register_duplicate_conflict_witness :
    (registerTool "c" (some noExecuteTool) [("c", constTool)]).1 =
      .error ⟨"Tool \"" ++ "c" ++ "\" is already registered.", .INVALID_STATE⟩ ∧
    (registerTool "c" (some noExecuteTool) [("c", constTool)]).2 = [("c", constTool)] ∧
    getKey (registerTool "c" (some noExecuteTool) [("c", constTool)]).2 "c" = some constTool :=
  register_duplicate_conflict [("c", constTool)] "c" (some noExecuteTool) constTool rfl

/-- C4 counterexample: `registerTool` accepts a plugin that has a
`getDeclaration` method but no `execute` method — the describe/execute
contract is only half-checked, so the claim "fails whenever the plugin
lacks either the describe operation or the execute operation" is false:
here a plugin without `execute` is registered successfully and the
registry gains the entry. -/
theorem register_accepts_plugin_without_execute :
    noExecuteTool.hasExecute = false ∧
    (registerTool "broken" (some noExecuteTool) []).1 = .ok () ∧
    (registerTool "broken" (some noExecuteTool) []).2 = [("broken", noExecuteTool)] :=
  ⟨rfl, rfl, rfl⟩

/-- C4 (amended): for a name not already registered, `registerTool` fails
with the invalid-capability condition (`INVALID_PARAMETER`) and leaves the
registry unchanged whenever the plugin is falsy or lacks the describe
(`getDeclaration`) operation; the execute operation is not checked at
registration. -/
theorem register_invalid_capability
    (name : String) (inst : Option ToolInstance) (m : Registry)
    (hfresh : hasKey m name = false)
    (hbad : inst = none ∨ ∃ t, inst = some t ∧ t.hasGetDeclaration = false) :
    (registerTool name inst m).1 =
      .error ⟨"Invalid tool instance for \"" ++ name ++ "\". Tool must have a \"getDeclaration\" method.",
        .INVALID_PARAMETER⟩ ∧
    (registerTool name inst m).2 = m := by
  rcases hbad with hnone | ⟨t, ht, hd⟩
  · subst hnone
    constructor <;> simp [registerTool, hfresh]
  · subst ht
    constructor <;> simp [registerTool, hfresh, hd]

theorem register_invalid_capability_witness :
    (registerTool "x" none []).1 =
      .error ⟨"Invalid tool instance for \"" ++ "x" ++ "\". Tool must have a \"getDeclaration\" method.",
        .INVALID_PARAMETER⟩ ∧
    (registerTool "x" none []).2 = [] :=
  register_invalid_capability "x" none [] rfl (Or.inl rfl)

/-! ## Declaration aggregation -/

/-- Whether a registry entry contributes a declaration: `describe` is
present, does not throw, and returns a truthy value. -/
def declOk (t : ToolInstance) : Bool :=
  match t.callGetDeclaration with
  | .ok d => !falsy d
  | .error _ => false

/-- The contribution of one registry entry to the aggregate: `none` when
the entry is skipped. -/
def declEntry (p : String × ToolInstance) : Option (String × JsValue) :=
  match (p.2).callGetDeclaration with
  | .ok d => if falsy d then none else some (p.1, d)
  | .error _ => none

theorem getToolDeclarations_eq (m : Registry) :
    getToolDeclarations m = m.filterMap declEntry := by
  have key : ∀ (l : Registry) (acc : List (String × JsValue)),
      List.foldl
        (fun declarations p =>
          match (p.2).callGetDeclaration with
          | .ok declaration =>
            if falsy declaration then declarations
            else declarations ++ [(p.1, declaration)]
          | .error _ => declarations)
        acc l
      = acc ++ l.filterMap declEntry := by
    intro l
    induction l with
    | nil => intro acc; simp
    | cons p rest ih =>
      intro acc
      rw [List.foldl_cons, List.filterMap_cons]
      cases hd : (p.2).callGetDeclaration with
      | ok d =>
        cases hf : falsy d with
        | false => simp [declEntry, hd, hf, ih, List.append_assoc]
        | true => simp [declEntry, hd, hf, ih]
      | error e => simp [declEntry, hd, ih]
  simpa [getToolDeclarations] using key m []

theorem length_filterMap_declEntry (l : Registry) :
    (l.filterMap declEntry).length = (l.filter (fun p => declOk p.2)).length := by
  induction l with
  | nil => rfl
  | cons p rest ih =>
    rw [List.filterMap_cons, List.filter_cons]
    have hiff : declEntry p = none ↔ declOk p.2 = false := by
      unfold declEntry declOk
      cases hd : (p.2).callGetDeclaration with
      | ok d => cases hf : falsy d <;> simp [hf]
      | error e => simp
    cases hok : declOk p.2 with
    | false =>
      rw [hiff.mpr hok]
      simpa using ih
    | true =>
      cases he : declEntry p with
      | none => exact absurd (hiff.mp he) (by simp [hok])
      | some q => simpa [he, hok] using ih

theorem length_filter_split (l : Registry) :
    (l.filter (fun p => declOk p.2)).length
      + (l.filter (fun p => !declOk p.2)).length = l.length := by
  induction l with
  | nil => rfl
  | cons p rest ih =>
    rw [List.filter_cons, List.filter_cons]
    cases hok : declOk p.2 <;> simp [List.length_cons] <;> omega

/-- C5: declaration aggregation never fails as a whole (it is a total
function of the registry); on a registry in which exactly one entry's
`describe` fails — it throws or returns a falsy declaration — the result
has exactly N−1 entries, and every returned pair originates from an entry
whose `describe` succeeded, so the failing plugin is skipped. -/
theorem declarations_skip_failing_plugin
    (m : Registry)
    (hone : (m.filter (fun p => !declOk p.2)).length = 1) :
    (getToolDeclarations m).length = m.length - 1 ∧
    ∀ q ∈ getToolDeclarations m, ∃ p ∈ m, p.1 = q.1 ∧ declOk p.2 = true := by
  constructor
  · rw [getToolDeclarations_eq, length_filterMap_declEntry]
    have := length_filter_split m
    omega
  · intro q hq
    rw [getToolDeclarations_eq] at hq
    obtain ⟨p, hpm, hpe⟩ := List.mem_filterMap.mp hq
    unfold declEntry at hpe
    refine ⟨p, hpm, ?_⟩
    unfold declOk
    cases hd : (p.2).callGetDeclaration with
    | ok d =>
      rw [hd] at hpe
      cases hf : falsy d with
      | false =>
        simp only [hf, Bool.false_eq_true, if_false, Option.some.injEq] at hpe
        exact ⟨congrArg Prod.fst hpe, by simp [hf]⟩
      | true => simp [hf] at hpe
    | error e => rw [hd] at hpe; simp at hpe

theorem declarations_skip_failing_plugin_witness :
    (getToolDeclarations [("weather", weatherTool "2024-01-01"), ("bad", badDeclTool)]).length
      = [("weather", weatherTool "2024-01-01"), ("bad", badDeclTool)].length - 1 ∧
    ∀ q ∈ getToolDeclarations [("weather", weatherTool "2024-01-01"), ("bad", badDeclTool)],
      ∃ p ∈ [("weather", weatherTool "2024-01-01"), ("bad", badDeclTool)],
        p.1 = q.1 ∧ declOk p.2 = true :=
  declarations_skip_failing_plugin
    [("weather", weatherTool "2024-01-01"), ("bad", badDeclTool)] rfl

/-- C6: whenever dispatch returns (rather than raising unknown-tool), the
returned envelope has exactly one entry; that entry's `id` is the
request's `id`, and its `response` object holds exactly one outcome key —
`output` with the result exactly when the resolved tool's `execute`
succeeded, `error` with the message exactly when it failed; never both,
never neither. -/
theorem dispatch_envelope_shape
    (m : Registry) (fc : FunctionCall) (r : ToolResponse)
    (h : handleToolCall m fc = .ok r) :
    ∃ t, resolveTool m fc.name = some t ∧
      ((∃ v, t.callExecute fc.args = .ok v ∧
          r = ⟨[⟨[("output", v)], fc.id⟩]⟩) ∨
       (∃ msg, t.callExecute fc.args = .error msg ∧
          r = ⟨[⟨[("error", .vStr msg)], fc.id⟩]⟩)) := by
  rw [handleToolCall_eq] at h
  cases hres : resolveTool m fc.name with
  | none =>
    rw [hres] at h
    exact absurd h (by simp [dispatchTo])
  | some t =>
    rw [hres] at h
    refine ⟨t, rfl, ?_⟩
    cases hex : t.callExecute fc.args with
    | ok v =>
      simp only [dispatchTo, hex, Except.ok.injEq] at h
      exact Or.inl ⟨v, rfl, h.symm⟩
    | error msg =>
      simp only [dispatchTo, hex, Except.ok.injEq] at h
      exact Or.inr ⟨msg, rfl, h.symm⟩

theorem dispatch_envelope_shape_witness :
    ∃ t, resolveTool [("c", constTool)] "c" = some t ∧
      ((∃ v, t.callExecute (.vObj []) = .ok v ∧
          (⟨[⟨[("output", .vStr "done")], "id-1"⟩]⟩ : ToolResponse)
            = ⟨[⟨[("output", v)], "id-1"⟩]⟩) ∨
       (∃ msg, t.callExecute (.vObj []) = .error msg ∧
          (⟨[⟨[("output", .vStr "done")], "id-1"⟩]⟩ : ToolResponse)
            = ⟨[⟨[("error", .vStr msg)], "id-1"⟩]⟩)) :=
  dispatch_envelope_shape [("c", constTool)] ⟨"c", .vObj [], "id-1"⟩
    ⟨[⟨[("output", .vStr "done")], "id-1"⟩]⟩ rfl

/-- C8: alias resolution of dispatch — a call named `get_weather_on_date`
is served by the plugin registered under the key `weather`, a call named
`sendEmail` by the plugin under the key `email`, and any other name is
looked up directly as a registry key; in each case dispatch then behaves
as `dispatchTo` on the resolved entry. -/
theorem dispatch_alias_resolution
    (m : Registry) (args : JsValue) (i : String) :
    handleToolCall m ⟨"get_weather_on_date", args, i⟩ =
      dispatchTo (getKey m "weather") args i "get_weather_on_date" ∧
    handleToolCall m ⟨"sendEmail", args, i⟩ =
      dispatchTo (getKey m "email") args i "sendEmail" ∧
    ∀ n : String, n ≠ "get_weather_on_date" → n ≠ "sendEmail" →
      handleToolCall m ⟨n, args, i⟩ = dispatchTo (getKey m n) args i n := by
  refine ⟨rfl, rfl, ?_⟩
  intro n h1 h2
  rw [handleToolCall_eq]
  simp only [resolveTool, beq_false_of_ne h1, beq_false_of_ne h2, if_false,
    Bool.false_eq_true]

theorem dispatch_alias_resolution_witness :
    handleToolCall [] ⟨"get_weather_on_date", .vObj [], "x"⟩ =
      dispatchTo (getKey [] "weather") (.vObj []) "x" "get_weather_on_date" ∧
    handleToolCall [] ⟨"mystery", .vObj [], "x"⟩ =
      dispatchTo (getKey [] "mystery") (.vObj []) "x" "mystery" :=
  ⟨(dispatch_alias_resolution [] (.vObj []) "x").1,
   (dispatch_alias_resolution [] (.vObj []) "x").2.2 "mystery" (by decide) (by decide)⟩

/-- C10: the alias table takes precedence over direct registry lookup:
even when a plugin is registered under the literal key
`get_weather_on_date` (resp. `sendEmail`), a call by that name is routed
to the plugin under the key `weather` (resp. `email`), and the dispatch
result for the aliased name depends only on the owning key's entry — such
a plugin is unreachable under its own registered name. -/
theorem alias_table_precedence
    (m : Registry) (t' : ToolInstance) (args : JsValue) (i : String)
    (_hlit : getKey m "get_weather_on_date" = some t') :
    handleToolCall m ⟨"get_weather_on_date", args, i⟩ =
      dispatchTo (getKey m "weather") args i "get_weather_on_date" ∧
    (∀ m' : Registry, getKey m' "weather" = getKey m "weather" →
      handleToolCall m' ⟨"get_weather_on_date", args, i⟩ =
        handleToolCall m ⟨"get_weather_on_date", args, i⟩) ∧
    (∀ t'' : ToolInstance, getKey m "sendEmail" = some t'' →
      handleToolCall m ⟨"sendEmail", args, i⟩ =
        dispatchTo (getKey m "email") args i "sendEmail") := by
  refine ⟨rfl, ?_, fun _ _ => rfl⟩
  intro m' hm'
  rw [handleToolCall_eq, handleToolCall_eq]
  simp [resolveTool, hm']

theorem alias_table_precedence_witness :
    handleToolCall [("get_weather_on_date", constTool), ("weather", weatherTool "2024-01-01")]
        ⟨"get_weather_on_date", .vObj [], "x"⟩ =
      dispatchTo
        (getKey [("get_weather_on_date", constTool), ("weather", weatherTool "2024-01-01")] "weather")
        (.vObj []) "x" "get_weather_on_date" ∧
    (∀ m' : Registry,
      getKey m' "weather" =
        getKey [("get_weather_on_date", constTool), ("weather", weatherTool "2024-01-01")] "weather" →
      handleToolCall m' ⟨"get_weather_on_date", .vObj [], "x"⟩ =
        handleToolCall [("get_weather_on_date", constTool), ("weather", weatherTool "2024-01-01")]
          ⟨"get_weather_on_date", .vObj [], "x"⟩) ∧
    (∀ t'' : ToolInstance,
      getKey [("get_weather_on_date", constTool), ("weather", weatherTool "2024-01-01")] "sendEmail"
        = some t'' →
      handleToolCall [("get_weather_on_date", constTool), ("weather", weatherTool "2024-01-01")]
          ⟨"sendEmail", .vObj [], "x"⟩ =
        dispatchTo
          (getKey [("get_weather_on_date", constTool), ("weather", weatherTool "2024-01-01")] "email")
          (.vObj []) "x" "sendEmail") :=
  alias_table_precedence
    [("get_weather_on_date", constTool), ("weather", weatherTool "2024-01-01")]
    constTool (.vObj []) "x" rfl

/-! ## Weather claims -/

/-- The argument object `{location, date}` of a weather call with an
explicitly supplied date. -/
def weatherArgs (loc date : String) : JsValue :=
  .vObj [("location", .vStr loc), ("date", .vStr date)]

theorem weatherConditions_getD (seed : Nat) :
    ∃ (mn mx : Int),
      temperatures (weatherConditions.getD (seed % weatherConditions.length) "")
        = some (mn, mx) ∧
      0 < mx - mn ∧
      weatherConditions.getD (seed % weatherConditions.length) "" ∈ weatherConditions := by
  have h9 : seed % weatherConditions.length < 9 := Nat.mod_lt _ (by decide)
  generalize hg : seed % weatherConditions.length = i at h9 ⊢
  interval_cases i <;> exact ⟨_, _, rfl, by decide, by decide⟩

theorem weatherExecute_ok (cd loc date : String) (hdate : date ≠ "") :
    ∃ (cond : String) (mn mx : Int),
      cond = weatherConditions.getD (hashString (loc ++ date) % weatherConditions.length) "" ∧
      cond ∈ weatherConditions ∧
      temperatures cond = some (mn, mx) ∧ 0 < mx - mn ∧
      weatherExecute cd (weatherArgs loc date) = .ok (.vObj [
        ("location", .vStr loc),
        ("date", .vStr date),
        ("condition", .vStr cond),
        ("temperature", .vInt (mn + (hashString (loc ++ date) : Int) % (mx - mn))),
        ("humidity", .vInt (40 + (hashString (loc ++ date) : Int) % 40)),
        ("windSpeed", .vInt (5 + (hashString (loc ++ date) : Int) % 25)),
        ("forecast", .vStr ("The weather in " ++ loc ++ " on " ++ date ++ " will be "
          ++ cond ++ " with a temperature of "
          ++ toString (mn + (hashString (loc ++ date) : Int) % (mx - mn)) ++ "Â°C"))]) := by
  obtain ⟨mn, mx, htemp, hlt, hmem⟩ := weatherConditions_getD (hashString (loc ++ date))
  refine ⟨_, mn, mx, rfl, hmem, htemp, hlt, ?_⟩
  have hbeq : (date == "") = false := beq_false_of_ne hdate
  have hloc : getField (weatherArgs loc date) "location" = .vStr loc := rfl
  have hdatef : getField (weatherArgs loc date) "date" = .vStr date := rfl
  unfold weatherExecute
  rw [hloc, hdatef]
  simp only [falsy, hbeq, Bool.false_eq_true, if_false, jsToString, htemp]

/-- C7: the forecast is a deterministic function of `(location, date)`:
with an explicitly supplied date the result of `WeatherTool.execute` does
not depend on the ambient current date, so two invocations with identical
arguments yield identical condition and temperature; moreover the
condition and temperature are derived from the hash seed of the
concatenated location and date. -/
theorem weather_forecast_deterministic
    (loc date cd cd' : String) (hdate : date ≠ "") :
    weatherExecute cd (weatherArgs loc date) = weatherExecute cd' (weatherArgs loc date) ∧
    ∃ res : JsValue, weatherExecute cd (weatherArgs loc date) = .ok res ∧
      ∃ mn mx : Int,
        temperatures (weatherConditions.getD
            (hashString (loc ++ date) % weatherConditions.length) "") = some (mn, mx) ∧
        getField res "condition" = .vStr (weatherConditions.getD
            (hashString (loc ++ date) % weatherConditions.length) "") ∧
        getField res "temperature" =
          .vInt (mn + (hashString (loc ++ date) : Int) % (mx - mn)) := by
  obtain ⟨cond, mn, mx, hcond, hmem, htemp, hlt, heq⟩ := weatherExecute_ok cd loc date hdate
  obtain ⟨cond', mn', mx', hcond', hmem', htemp', hlt', heq'⟩ := weatherExecute_ok cd' loc date hdate
  subst hcond
  subst hcond'
  have hpair : (mn, mx) = (mn', mx') := Option.some.inj (htemp ▸ htemp')
  rw [Prod.mk.injEq] at hpair
  constructor
  · rw [heq, heq', hpair.1, hpair.2]
  · exact ⟨_, heq, mn, mx, htemp, rfl, rfl⟩

theorem weather_forecast_deterministic_witness :
    weatherExecute "2020-01-01" (weatherArgs "Manila" "2024-03-01") =
      weatherExecute "2021-12-31" (weatherArgs "Manila" "2024-03-01") ∧
    ∃ res : JsValue,
      weatherExecute "2020-01-01" (weatherArgs "Manila" "2024-03-01") = .ok res ∧
      ∃ mn mx : Int,
        temperatures (weatherConditions.getD
            (hashString ("Manila" ++ "2024-03-01") % weatherConditions.length) "")
          = some (mn, mx) ∧
        getField res "condition" = .vStr (weatherConditions.getD
            (hashString ("Manila" ++ "2024-03-01") % weatherConditions.length) "") ∧
        getField res "temperature" =
          .vInt (mn + (hashString ("Manila" ++ "2024-03-01") : Int) % (mx - mn)) :=
  weather_forecast_deterministic "Manila" "2024-03-01" "2020-01-01" "2021-12-31" (by decide)

/-- C9: with an explicitly supplied date, `WeatherTool.execute` is total —
it returns a result (never throws) — and the result's condition is one of
the nine fixed conditions, its temperature lies within that condition's
`[min, max]` band, its humidity in `[40, 79]` and its wind speed in
`[5, 29]`: the seed is a non-negative integer and every modulus is
positive. -/
theorem weather_execute_total
    (cd loc date : String) (hdate : date ≠ "") :
    ∃ res : JsValue, weatherExecute cd (weatherArgs loc date) = .ok res ∧
      ∃ (cond : String) (tv hv wv mn mx : Int),
        getField res "condition" = .vStr cond ∧ cond ∈ weatherConditions ∧
        temperatures cond = some (mn, mx) ∧
        getField res "temperature" = .vInt tv ∧ mn ≤ tv ∧ tv ≤ mx ∧
        getField res "humidity" = .vInt hv ∧ 40 ≤ hv ∧ hv ≤ 79 ∧
        getField res "windSpeed" = .vInt wv ∧ 5 ≤ wv ∧ wv ≤ 29 := by
  obtain ⟨cond, mn, mx, hcond, hmem, htemp, hlt, heq⟩ := weatherExecute_ok cd loc date hdate
  have hznn : (0 : Int) ≤ (hashString (loc ++ date) : Int) := Int.ofNat_nonneg _
  have hr1 : 0 ≤ (hashString (loc ++ date) : Int) % (mx - mn) :=
    Int.emod_nonneg _ (ne_of_gt hlt)
  have hr2 : (hashString (loc ++ date) : Int) % (mx - mn) < mx - mn :=
    Int.emod_lt_of_pos _ hlt
  have hh1 : 0 ≤ (hashString (loc ++ date) : Int) % 40 :=
    Int.emod_nonneg _ (by norm_num)
  have hh2 : (hashString (loc ++ date) : Int) % 40 < 40 :=
    Int.emod_lt_of_pos _ (by norm_num)
  have hw1 : 0 ≤ (hashString (loc ++ date) : Int) % 25 :=
    Int.emod_nonneg _ (by norm_num)
  have hw2 : (hashString (loc ++ date) : Int) % 25 < 25 :=
    Int.emod_lt_of_pos _ (by norm_num)
  refine ⟨_, heq, cond,
    mn + (hashString (loc ++ date) : Int) % (mx - mn),
    40 + (hashString (loc ++ date) : Int) % 40,
    5 + (hashString (loc ++ date) : Int) % 25,
    mn, mx, rfl, hmem, htemp, rfl, by linarith, by linarith,
    rfl, by linarith, by linarith, rfl, by linarith, by linarith⟩

theorem weather_execute_total_witness :
    ∃ res : JsValue, weatherExecute "2020-01-01" (weatherArgs "Tokyo" "2025-12-31") = .ok res ∧
      ∃ (cond : String) (tv hv wv mn mx : Int),
        getField res "condition" = .vStr cond ∧ cond ∈ weatherConditions ∧
        temperatures cond = some (mn, mx) ∧
        getField res "temperature" = .vInt tv ∧ mn ≤ tv ∧ tv ≤ mx ∧
        getField res "humidity" = .vInt hv ∧ 40 ≤ hv ∧ hv ≤ 79 ∧
        getField res "windSpeed" = .vInt wv ∧ 5 ≤ wv ∧ wv ≤ 29 :=
  weather_execute_total "2020-01-01" "Tokyo" "2025-12-31" (by decide)

end VepAlex
